import Mathlib

/-!
Shallow embedding of `src/PyGW2/calendar.py` (the PyGW2 calendar library).

Conventions of the embedding:
* Python `int` is Lean `Int`.  For a positive divisor, Python `%` and `//`
  agree with Lean's `%` (`Int.emod`) and `/` (`Int.ediv`), and
  `math.floor(x / n)` is `x / n`, `math.ceil(x / n)` is `-(-x / n)`.
* A Python method that can `raise` is embedded as a function into
  `Except PyError _`; the error constructors mirror the exception classes
  that the source raises (`ValueError`, `TypeError`, `RuntimeError`), plus
  `nameError` for a lookup of an unbound global name (`NameError`).
* Gregorian dates (`datetime.date`) are treated as the external primitive
  the library assumes: a day ordinal, embedded as `Int`, with
  `date2 - date1` the ordinal difference and `date + timedelta(days = n)`
  ordinal addition.
* `MauvelianDate` instances carry one field, the internal signed offset
  `_day`; no invariant is baked into the type, matching the Python class.
-/

inductive PyError where
  | valueError
  | typeError
  | runtimeError
  | nameError
deriving DecidableEq, Repr

instance instDecEqExcept {ε α : Type} [DecidableEq ε] [DecidableEq α] :
    DecidableEq (Except ε α) := fun a b =>
  match a, b with
  | .error e, .error f =>
    if h : e = f then .isTrue (by simp [h]) else .isFalse (by simp [h])
  | .ok x, .ok y =>
    if h : x = y then .isTrue (by simp [h]) else .isFalse (by simp [h])
  | .error _, .ok _ => .isFalse (by simp)
  | .ok _, .error _ => .isFalse (by simp)

inductive MauvelianSeason where
  | ZEPHYR
  | PHOENIX
  | SCION
  | COLOSSUS
deriving DecidableEq, Repr

/-- Python property `MauvelianSeason.daysRange` returns a `range` object; we embed its
`.start` field.  `range(1, 91)`, `range(91, 181)`, `range(181, 271)`,
`range(271, 366)` for the four seasons. -/
def MauvelianSeason.daysRangeStart : MauvelianSeason → Int
  | .ZEPHYR => 1
  | .PHOENIX => 91
  | .SCION => 181
  | .COLOSSUS => 271

/-- Embeds the (exclusive) `.stop` field of the `range` returned by `daysRange`. -/
def MauvelianSeason.daysRangeStop : MauvelianSeason → Int
  | .ZEPHYR => 91
  | .PHOENIX => 181
  | .SCION => 271
  | .COLOSSUS => 366

/-- Embeds `len(season.daysRange)` from the source: the number of days of the season. -/
def MauvelianSeason.daysRangeLen (s : MauvelianSeason) : Int :=
  s.daysRangeStop - s.daysRangeStart

/-- Embeds `MauvelianSeason.seasonOf(day_of_year)`: raises `ValueError` outside
`[1, 365]`, otherwise the nested comparisons of the source. -/
def MauvelianSeason.seasonOf (day_of_year : Int) : Except PyError MauvelianSeason :=
  if ¬(1 ≤ day_of_year ∧ day_of_year ≤ 365) then
    .error .valueError
  else if day_of_year ≤ 180 then
    if day_of_year ≤ 90 then .ok .ZEPHYR else .ok .PHOENIX
  else
    if day_of_year ≤ 270 then .ok .SCION else .ok .COLOSSUS

structure MauvelianDate where
  _day : Int
deriving DecidableEq, Repr

/-- Embeds the offset formula at the end of `MauvelianDate.__init__`:
`day + 365*(year-1)` for positive years, `-day - 365*(year+1)` otherwise. -/
def MauvelianDate.encode (year day : Int) : MauvelianDate :=
  if year > 0 then ⟨day + 365 * (year - 1)⟩ else ⟨-day - 365 * (year + 1)⟩

/-- Embeds the tail of `__init__` after the optional season shift: the range check
`1 <= day <= 365` (raising `ValueError`) followed by the offset computation. -/
def MauvelianDate.initShifted (year day : Int) : Except PyError MauvelianDate :=
  if ¬(1 ≤ day ∧ day ≤ 365) then .error .valueError
  else .ok (MauvelianDate.encode year day)

/-- Embeds `MauvelianDate.__init__(year, day, season)`: rejects `year == 0`; when a
season is given, checks `1 <= day <= len(season.daysRange)` and shifts `day`
by `season.daysRange.start - 1`; then delegates to the common tail. -/
def MauvelianDate.init (year day : Int) (season : Option MauvelianSeason) :
    Except PyError MauvelianDate :=
  if year = 0 then .error .valueError
  else
    match season with
    | none => MauvelianDate.initShifted year day
    | some s =>
      if ¬(1 ≤ day ∧ day ≤ s.daysRangeLen) then .error .valueError
      else MauvelianDate.initShifted year (day + s.daysRangeStart - 1)

/-- Embeds `MauvelianDate.year`: `math.ceil(self._day / 365)` when `_day > 0`,
`math.floor(self._day / 365)` otherwise. -/
def MauvelianDate.year (d : MauvelianDate) : Int :=
  if d._day > 0 then -(-d._day / 365) else d._day / 365

/-- Embeds `MauvelianDate.dayOfYear`: `abs(self._day % 365)`, with a zero result
remapped to `365`. -/
def MauvelianDate.dayOfYear (d : MauvelianDate) : Int :=
  let r := |d._day % 365|
  if r = 0 then 365 else r

/-- Embeds `MauvelianDate.season`: `MauvelianSeason.seasonOf(self.dayOfYear)`. -/
def MauvelianDate.season (d : MauvelianDate) : Except PyError MauvelianSeason :=
  MauvelianSeason.seasonOf d.dayOfYear

/-- Embeds `MauvelianDate.dayOfSeason`:
`self.dayOfYear - MauvelianSeason.seasonOf(self.dayOfYear).daysRange.start + 1`. -/
def MauvelianDate.dayOfSeason (d : MauvelianDate) : Except PyError Int :=
  (MauvelianSeason.seasonOf d.dayOfYear).map
    (fun s => d.dayOfYear - s.daysRangeStart + 1)

/-- Embeds `MauvelianDate.__lt__`. -/
def MauvelianDate.ltOp (a b : MauvelianDate) : Bool := a._day < b._day

/-- Embeds `MauvelianDate.__gt__`. -/
def MauvelianDate.gtOp (a b : MauvelianDate) : Bool := a._day > b._day

/-- Embeds `MauvelianDate.__eq__`. -/
def MauvelianDate.eqOp (a b : MauvelianDate) : Bool := a._day == b._day

/-- Embeds `MauvelianDate.addDays(days)`: adds `days` to the offset; if the result is
exactly `0`, both branches of the inner `if days > 0` set it to `1`. -/
def MauvelianDate.addDays (d : MauvelianDate) (days : Int) : MauvelianDate :=
  let nd := d._day + days
  if nd = 0 then
    if days > 0 then ⟨1⟩ else ⟨1⟩
  else ⟨nd⟩

/-- Embeds `MauvelianDate.daysBetween(other)`: `abs(self._day - other._day)`. -/
def MauvelianDate.daysBetween (a b : MauvelianDate) : Int :=
  |a._day - b._day|

/-- Embeds `MauvelianDate.__add__(days)`: builds a fresh date from the accessors,
`MauvelianDate(self.year, self.dayOfYear)`, and applies `addDays` to it; the
reconstruction goes through `__init__` and can raise. -/
def MauvelianDate.hAddInt (d : MauvelianDate) (days : Int) : Except PyError MauvelianDate :=
  (MauvelianDate.init d.year d.dayOfYear none).map (fun nd => nd.addDays days)

/-- Embeds `MauvelianDate.__sub__(other)`: on a `MauvelianDate` argument it returns
`self.daysBetween(other)`; on any other argument it evaluates `self - other`,
which dispatches to this very method with the same arguments again.  The
recursion is embedded with explicit fuel; `none` means the call does not
terminate (in CPython: `RecursionError`). -/
def MauvelianDate.subOp (fuel : Nat) (d : MauvelianDate) (other : MauvelianDate ⊕ Int) :
    Option (Int ⊕ MauvelianDate) :=
  match fuel with
  | 0 => none
  | fuel + 1 =>
    match other with
    | .inl o => some (.inl (d.daysBetween o))
    | .inr n => d.subOp fuel (.inr n)

/-- Embeds `DateConverter`: its only state is the `_reference` pair, initially
`(None, None)`.  Gregorian dates are day ordinals (`Int`). -/
structure DateConverter where
  reference : Option Int × Option MauvelianDate
deriving DecidableEq, Repr

/-- Embeds a freshly created converter: `_reference = (None, None)`. -/
def DateConverter.new : DateConverter := ⟨(none, none)⟩

/-- Embeds `DateConverter.setReferencePoint(real_date, mauvelian_date)`.  The guard is
`(not isinstance(real_date, datetime.date) or not isinstance(mauvelian_date,
MauvelianDate)) and not (isinstance(real_date, NoneType) and ...)`.
When both arguments are of the proper types the left operand of `and` is
`False`, the guard short-circuits, and the pair is stored.  In every other
case the right operand is evaluated, and its first step is the lookup of the
global name `NoneType`, which is defined nowhere in the module and is not a
builtin: the call raises `NameError` before any `TypeError` can be raised. -/
def DateConverter.setReferencePoint (c : DateConverter)
    (real_date : Option Int) (mauvelian_date : Option MauvelianDate) :
    Except PyError DateConverter :=
  match real_date, mauvelian_date with
  | some r, some m => .ok { c with reference := (some r, some m) }
  | _, _ => .error .nameError

/-- Embeds `DateConverter.realToMauvelian(real_date)`: raises `RuntimeError` when
either component of `_reference` is `None`; otherwise computes
`delta_days = (real_date - reference_real).days` and returns
`reference_mauvelian + delta_days` via `__add__`.  The second component of
the result is the converter after the call (the method never writes state). -/
def DateConverter.realToMauvelian (c : DateConverter) (real_date : Int) :
    Except PyError MauvelianDate × DateConverter :=
  match c.reference with
  | (some r0, some m0) => (m0.hAddInt (real_date - r0), c)
  | _ => (.error .runtimeError, c)

/-- Embeds `DateConverter.mauvelianToReal(mauvelian_date)`: raises `RuntimeError`
under the same condition; otherwise `delta_days = mauvelian_date -
reference_mauvelian`, where `__sub__` on a `MauvelianDate` argument is
`daysBetween` (the nonnegative magnitude), and returns
`reference_real + timedelta(days = delta_days)`.  The second component of the
result is the converter after the call. -/
def DateConverter.mauvelianToReal (c : DateConverter) (mauvelian_date : MauvelianDate) :
    Except PyError Int × DateConverter :=
  match c.reference with
  | (some r0, some m0) => (.ok (r0 + mauvelian_date.daysBetween m0), c)
  | _ => (.error .runtimeError, c)

-- Sanity checks mirroring the self-test block at the bottom of the source.
example : MauvelianDate.init 1306 76 (some .SCION) =
    .ok ⟨256 + 365 * 1305⟩ := by decide
example : (MauvelianDate.mk (256 + 365 * 1305)).dayOfYear = 256 := by decide
example : MauvelianDate.init 1318 128 none = .ok ⟨128 + 365 * 1317⟩ := by decide
example : (MauvelianDate.mk (256 + 365 * 1305)).ltOp ⟨128 + 365 * 1317⟩ = true := by
  decide
example : (MauvelianDate.mk (128 + 365 * 1317)).season = .ok .PHOENIX := by decide
example : (MauvelianDate.mk (128 + 365 * 1317)).daysBetween ⟨256 + 365 * 1305⟩ =
    365 * 11 + 109 + 128 := by decide
example : (MauvelianDate.mk (256 + 365 * 1305)).hAddInt (365 * 11 + 109 + 128) =
    .ok ⟨128 + 365 * 1317⟩ := by decide

/-!  Helper lemmas about the accessors, shared by several claim theorems.  -/

theorem dayOfYear_mk (a : Int) :
    (MauvelianDate.mk a).dayOfYear = if a % 365 = 0 then 365 else a % 365 := by
  simp only [MauvelianDate.dayOfYear]
  rw [abs_of_nonneg (Int.emod_nonneg a (by norm_num))]

theorem dayOfYear_bounds (d : MauvelianDate) :
    1 ≤ d.dayOfYear ∧ d.dayOfYear ≤ 365 := by
  obtain ⟨a⟩ := d
  rw [dayOfYear_mk]
  split <;> omega

theorem year_mk_pos (a : Int) (h : 0 < a) :
    (MauvelianDate.mk a).year = -(-a / 365) := by
  simp only [MauvelianDate.year]
  rw [if_pos h]

theorem encode_pos (year day : Int) (hy : 1 ≤ year) :
    MauvelianDate.encode year day = ⟨day + 365 * (year - 1)⟩ := by
  simp only [MauvelianDate.encode]
  rw [if_pos (by omega)]

theorem encode_roundtrip (d : MauvelianDate) (h : 0 < d._day) :
    MauvelianDate.encode d.year d.dayOfYear = d := by
  obtain ⟨a⟩ := d
  have ha : 0 < a := h
  have hy : 1 ≤ (MauvelianDate.mk a).year := by
    rw [year_mk_pos a ha]; omega
  rw [encode_pos _ _ hy, year_mk_pos a ha, dayOfYear_mk]
  simp only [MauvelianDate.mk.injEq]
  split <;> omega

theorem year_pos (d : MauvelianDate) (h : 0 < d._day) : 1 ≤ d.year := by
  obtain ⟨a⟩ := d
  have ha : 0 < a := h
  rw [year_mk_pos a ha]
  omega

theorem seasonOf_mem (x : Int) (h1 : 1 ≤ x) (h2 : x ≤ 365) :
    ∃ s, MauvelianSeason.seasonOf x = .ok s ∧
      s.daysRangeStart ≤ x ∧ x < s.daysRangeStop := by
  simp only [MauvelianSeason.seasonOf]
  rw [if_neg (by omega : ¬¬(1 ≤ x ∧ x ≤ 365))]
  by_cases hA : x ≤ 90
  · refine ⟨.ZEPHYR, ?_, ?_, ?_⟩
    · rw [if_pos (by omega : x ≤ 180), if_pos hA]
    · simp only [MauvelianSeason.daysRangeStart]; omega
    · simp only [MauvelianSeason.daysRangeStop]; omega
  by_cases hB : x ≤ 180
  · refine ⟨.PHOENIX, ?_, ?_, ?_⟩
    · rw [if_pos hB, if_neg hA]
    · simp only [MauvelianSeason.daysRangeStart]; omega
    · simp only [MauvelianSeason.daysRangeStop]; omega
  by_cases hC : x ≤ 270
  · refine ⟨.SCION, ?_, ?_, ?_⟩
    · rw [if_neg hB, if_pos hC]
    · simp only [MauvelianSeason.daysRangeStart]; omega
    · simp only [MauvelianSeason.daysRangeStop]; omega
  · refine ⟨.COLOSSUS, ?_, ?_, ?_⟩
    · rw [if_neg hB, if_neg hC]
    · simp only [MauvelianSeason.daysRangeStart]; omega
    · simp only [MauvelianSeason.daysRangeStop]; omega

/-- C1 counterexample: the claim quantifies over every nonzero year, but for
the BE date constructed from `(year = -1, dayOfYear = 1)` the derived
`dayOfYear` accessor returns `364`, not `1`. -/
theorem C1_counterexample :
    MauvelianDate.init (-1) 1 none = .ok ⟨-1⟩ ∧
      (MauvelianDate.mk (-1)).dayOfYear = 364 ∧
      (MauvelianDate.mk (-1)).dayOfYear ≠ 1 := by decide

/-- C1 (amended): for every AE year (`year ≥ 1`) and every `dayOfYear` in
`1..365`, constructing a `MauvelianDate` from `(year, dayOfYear)` succeeds and
the derived accessors return the constructed values. -/
theorem C1_ae_roundtrip (year day : Int) (hy : 1 ≤ year)
    (h1 : 1 ≤ day) (h2 : day ≤ 365) :
    ∃ d, MauvelianDate.init year day none = .ok d ∧
      d.year = year ∧ d.dayOfYear = day := by
  refine ⟨⟨day + 365 * (year - 1)⟩, ?_, ?_, ?_⟩
  · simp only [MauvelianDate.init, MauvelianDate.initShifted]
    rw [if_neg (by omega : ¬year = 0),
      if_neg (by omega : ¬¬(1 ≤ day ∧ day ≤ 365)), encode_pos year day hy]
  · rw [year_mk_pos _ (by omega)]
    omega
  · rw [dayOfYear_mk]
    split <;> omega

/-- C1 witness: the amended round-trip at `(year, dayOfYear) = (1306, 256)`. -/
theorem C1_ae_roundtrip_witness :
    ∃ d, MauvelianDate.init 1306 256 none = .ok d ∧
      d.year = 1306 ∧ d.dayOfYear = 256 :=
  C1_ae_roundtrip 1306 256 (by norm_num) (by norm_num) (by norm_num)

/-- C2: the constructor itself violates the claimed invariant: the valid
arguments `(year = -2, dayOfYear = 365)` produce the internal offset `0`,
whose `year` accessor returns `0`. -/
theorem C2_offset_zero_bug :
    MauvelianDate.init (-2) 365 none = .ok ⟨0⟩ ∧
      (MauvelianDate.mk 0)._day = 0 ∧ (MauvelianDate.mk 0).year = 0 := by decide

/-- C5: `__sub__` with an integer argument never returns: the fallback branch
re-evaluates `self - other` with the same arguments, so the call exhausts any
amount of fuel (in CPython it raises `RecursionError`), instead of returning
`addDays(-n)` on a copy as the claim states. -/
theorem C5_sub_int_diverges :
    ∀ (fuel : Nat) (d : MauvelianDate) (n : Int),
      MauvelianDate.subOp fuel d (Sum.inr n) = none := by
  intro fuel
  induction fuel with
  | zero => intro d n; rfl
  | succ k ih => intro d n; exact ih d n

/-- C6: `setReferencePoint` evaluates the undefined global name `NoneType`
whenever either argument is missing, so clearing both raises `NameError`
instead of succeeding, and supplying exactly one raises `NameError` instead
of `TypeError`; only the both-supplied case stores the pair. -/
theorem C6_nameError_bug :
    DateConverter.new.setReferencePoint none none = .error .nameError ∧
      DateConverter.new.setReferencePoint (some 736273) none = .error .nameError ∧
      DateConverter.new.setReferencePoint none (some ⟨484660⟩) = .error .nameError ∧
      DateConverter.new.setReferencePoint (some 736273) (some ⟨484660⟩) =
        .ok ⟨(some 736273, some ⟨484660⟩)⟩ ∧
      (Except.error PyError.nameError : Except PyError DateConverter) ≠
        .error PyError.typeError := by decide

/-- C7: with no complete reference pair stored, both conversions fail with
`RuntimeError` (the `PreconditionError` of the spec) and leave the converter
state unchanged. -/
theorem C7_precondition (c : DateConverter) (r : Int) (m : MauvelianDate)
    (h : c.reference.1 = none ∨ c.reference.2 = none) :
    c.realToMauvelian r = (.error .runtimeError, c) ∧
      c.mauvelianToReal m = (.error .runtimeError, c) := by
  obtain ⟨⟨x, y⟩⟩ := c
  rcases x with _ | r0 <;> rcases y with _ | m0
  · exact ⟨rfl, rfl⟩
  · exact ⟨rfl, rfl⟩
  · exact ⟨rfl, rfl⟩
  · simp at h

/-- C7 witness: a fresh converter rejects both conversions. -/
theorem C7_precondition_witness :
    DateConverter.new.realToMauvelian 0 =
        (.error .runtimeError, DateConverter.new) ∧
      DateConverter.new.mauvelianToReal ⟨1⟩ =
        (.error .runtimeError, DateConverter.new) :=
  C7_precondition DateConverter.new 0 ⟨1⟩ (Or.inl rfl)

/-- C8: `addDays(n)` advances the internal offset by exactly `n`, except that
a result landing exactly on the forbidden offset `0` is coerced to `1`
regardless of the sign of `n` (both branches of the inner conditional store
`1`). -/
theorem C8_addDays_exact (d : MauvelianDate) (n : Int) :
    ((d.addDays n)._day = d._day + n ∧ d._day + n ≠ 0) ∨
      ((d.addDays n)._day = 1 ∧ d._day + n = 0) := by
  obtain ⟨a⟩ := d
  simp only [MauvelianDate.addDays]
  by_cases h : a + n = 0
  · right
    rw [if_pos h]
    exact ⟨by split <;> rfl, h⟩
  · left
    rw [if_neg h]
    exact ⟨rfl, h⟩

/-- C3: the converter of the repository example (reference real ordinal
`736273`, i.e. 2016-11-05, paired with `MauvelianDate(1328, 35, Colossus)`,
offset `484660`) maps the Mauvelian date one day BEFORE the reference to the
real date one day AFTER it: `__sub__` delegates to the magnitude-only
`daysBetween`, and no re-signing by the ordering ever happens, contradicting
the claimed signed delta. -/
theorem C3_magnitude_bug :
    MauvelianDate.init 1328 35 (some .COLOSSUS) = .ok ⟨484660⟩ ∧
      DateConverter.new.setReferencePoint (some 736273) (some ⟨484660⟩) =
        .ok ⟨(some 736273, some ⟨484660⟩)⟩ ∧
      (MauvelianDate.mk 484659).ltOp ⟨484660⟩ = true ∧
      (DateConverter.mk (some 736273, some ⟨484660⟩)).mauvelianToReal ⟨484659⟩ =
        (.ok 736274, ⟨(some 736273, some ⟨484660⟩)⟩) ∧
      (736274 : Int) ≠ 736273 - 1 := by decide

/-- C4: with the example reference pair, the round trip
`realToMauvelian(mauvelianToReal(d))` moves the Mauvelian date one day before
the reference two days forward (offset `484659` comes back as `484661`), so
the two conversions are not mutually inverse. -/
theorem C4_roundtrip_bug :
    ((DateConverter.mk (some 736273, some ⟨484660⟩)).mauvelianToReal
        ⟨484659⟩).1 = .ok 736274 ∧
      ((DateConverter.mk (some 736273, some ⟨484660⟩)).realToMauvelian
        736274).1 = .ok ⟨484661⟩ ∧
      (MauvelianDate.mk 484661).eqOp ⟨484659⟩ = false := by decide

/-- C9: for every day-of-year in `1..365` the season lookup follows the
inclusive upper bounds in descending precedence, and for every
`MauvelianDate` the derived `dayOfYear` lies inside the returned season's day
range while `dayOfSeason` equals `dayOfYear - startDay + 1` and lies in
`1..length` of the season (`90`, or `95` for Colossus). -/
theorem C9_seasons (doy : Int) (d : MauvelianDate)
    (h1 : 1 ≤ doy) (h2 : doy ≤ 365) :
    MauvelianSeason.seasonOf doy =
      .ok (if doy ≤ 90 then .ZEPHYR else if doy ≤ 180 then .PHOENIX
        else if doy ≤ 270 then .SCION else .COLOSSUS) ∧
    ∃ s, d.season = .ok s ∧
      s.daysRangeStart ≤ d.dayOfYear ∧ d.dayOfYear < s.daysRangeStop ∧
      d.dayOfSeason = .ok (d.dayOfYear - s.daysRangeStart + 1) ∧
      1 ≤ d.dayOfYear - s.daysRangeStart + 1 ∧
      d.dayOfYear - s.daysRangeStart + 1 ≤ s.daysRangeLen := by
  have hb := dayOfYear_bounds d
  constructor
  · simp only [MauvelianSeason.seasonOf]
    rw [if_neg (by omega : ¬¬(1 ≤ doy ∧ doy ≤ 365))]
    split_ifs <;> first | rfl | omega
  · obtain ⟨s, hs, hlo, hhi⟩ := seasonOf_mem d.dayOfYear hb.1 hb.2
    refine ⟨s, ?_, hlo, hhi, ?_, by omega, ?_⟩
    · simp only [MauvelianDate.season]
      exact hs
    · simp only [MauvelianDate.dayOfSeason]
      rw [hs]
      rfl
    · simp only [MauvelianSeason.daysRangeLen]
      omega

/-- C9 witness: the season properties at `doy = 100` and at Davros' birth
date, offset `476581` (256th day of 1306). -/
theorem C9_seasons_witness :
    MauvelianSeason.seasonOf 100 =
      .ok (if (100 : Int) ≤ 90 then .ZEPHYR else if (100 : Int) ≤ 180 then
        .PHOENIX else if (100 : Int) ≤ 270 then .SCION else .COLOSSUS) ∧
    ∃ s, (MauvelianDate.mk 476581).season = .ok s ∧
      s.daysRangeStart ≤ (MauvelianDate.mk 476581).dayOfYear ∧
      (MauvelianDate.mk 476581).dayOfYear < s.daysRangeStop ∧
      (MauvelianDate.mk 476581).dayOfSeason =
        .ok ((MauvelianDate.mk 476581).dayOfYear - s.daysRangeStart + 1) ∧
      1 ≤ (MauvelianDate.mk 476581).dayOfYear - s.daysRangeStart + 1 ∧
      (MauvelianDate.mk 476581).dayOfYear - s.daysRangeStart + 1 ≤
        s.daysRangeLen :=
  C9_seasons 100 ⟨476581⟩ (by norm_num) (by norm_num)

/-- C10: every `MauvelianDate` with a positive internal offset (an AE date)
is reconstructed exactly from its own accessors, so
`MauvelianDate(d.year, d.dayOfYear)` equals `d` and `d + 0` returns `d`. -/
theorem C10_reconstruct (d : MauvelianDate) (h : 0 < d._day) :
    MauvelianDate.init d.year d.dayOfYear none = .ok d ∧
      d.hAddInt 0 = .ok d := by
  have hb := dayOfYear_bounds d
  have hy := year_pos d h
  have hinit : MauvelianDate.init d.year d.dayOfYear none = .ok d := by
    simp only [MauvelianDate.init, MauvelianDate.initShifted]
    rw [if_neg (by omega : ¬d.year = 0),
      if_neg (by omega : ¬¬(1 ≤ d.dayOfYear ∧ d.dayOfYear ≤ 365)),
      encode_roundtrip d h]
  refine ⟨hinit, ?_⟩
  simp only [MauvelianDate.hAddInt]
  rw [hinit]
  show Except.ok (d.addDays 0) = Except.ok d
  have hd : d.addDays 0 = d := by
    simp only [MauvelianDate.addDays]
    rw [if_neg (by omega : ¬(d._day + 0 = 0)), Int.add_zero]
  rw [hd]

/-- C10 witness: reconstruction at the reference date of the example,
offset `484660`. -/
theorem C10_reconstruct_witness :
    MauvelianDate.init (MauvelianDate.mk 484660).year
        (MauvelianDate.mk 484660).dayOfYear none = .ok ⟨484660⟩ ∧
      (MauvelianDate.mk 484660).hAddInt 0 = .ok ⟨484660⟩ :=
  C10_reconstruct ⟨484660⟩ (by norm_num)
